import Mathlib

/-!
Verification of the PASS schedule PDF generator (`pass-schedule-pdf.py`).

The file contains a shallow embedding of the program: date and filename
utilities, the PDF post-processing stage (`add_message_to_pdf`), the
capture stage (`generate_schedule_pdf`), the orchestrator (`main`) and
the top-level script block, followed by theorems checking the
specification claims against this embedding.

Dates are modelled as integers counting days since 1970-01-01 in the
proleptic Gregorian calendar, the calendar used by the Python `datetime`
module.  Python `datetime` only supports years 1 to 9999 and raises
`OverflowError` outside that range; the embedding models this bounded
domain explicitly at the places where the source either catches such
errors (`get_monday_from_week_number`) or lets them escape
(`get_target_date`, `WEEKS_OFFSET` branch).

Operations whose outcome depends on the outside world (file system,
browser, PDF libraries) are modelled by explicit environment records
carrying the relevant facts (which files exist, which DOM selectors
match, which library calls raise), mirroring the try/except structure of
the source one handler at a time.
-/

namespace PassEdtSign

/-! ## Calendar arithmetic (the fragment of Python `datetime` the program uses) -/

/-- Gregorian leap year test. -/
def isLeap (y : Int) : Bool :=
  y % 4 == 0 && (y % 100 != 0 || y % 400 == 0)

/-- Number of days in month `m` of year `y`. -/
def daysInMonth (y : Int) (m : Int) : Int :=
  if m = 2 then (if isLeap y then 29 else 28)
  else if m = 4 ∨ m = 6 ∨ m = 9 ∨ m = 11 then 30
  else 31

/-- Day number (days since 1970-01-01) of the civil date `y-m-d` in the
proleptic Gregorian calendar (Hinnant day-count algorithm with floor
division, which is what `/` on `Int` is for positive divisors). -/
def daysFromCivil (y m d : Int) : Int :=
  let y2 := if m ≤ 2 then y - 1 else y
  let era := y2 / 400
  let yoe := y2 - era * 400
  let mp := if 2 < m then m - 3 else m + 9
  let doy := (153 * mp + 2) / 5 + d - 1
  let doe := yoe * 365 + yoe / 4 - yoe / 100 + doy
  era * 146097 + doe - 719468

/-- Civil date `(year, month, day)` of a day number (inverse of
`daysFromCivil`). -/
def civilFromDays (z : Int) : Int × Int × Int :=
  let z2 := z + 719468
  let era := z2 / 146097
  let doe := z2 - era * 146097
  let yoe := (doe - doe / 1460 + doe / 36524 - doe / 146096) / 365
  let y := yoe + era * 400
  let doy := doe - (365 * yoe + yoe / 4 - yoe / 100)
  let mp := (5 * doy + 2) / 153
  let d := doy - (153 * mp + 2) / 5 + 1
  let m := if mp < 10 then mp + 3 else mp - 9
  (if m ≤ 2 then y + 1 else y, m, d)

/-- Python `datetime.weekday()`: Monday = 0 .. Sunday = 6.
Day 0 (1970-01-01) was a Thursday, hence the offset 3. -/
def weekday (z : Int) : Int := (z + 3) % 7

/-- Python `datetime.isoweekday()`: Monday = 1 .. Sunday = 7. -/
def isoweekday (z : Int) : Int := weekday z + 1

/-- Smallest day number Python `datetime` supports (0001-01-01). -/
def dateMin : Int := daysFromCivil 1 1 1

/-- Largest day number Python `datetime` supports (9999-12-31). -/
def dateMax : Int := daysFromCivil 9999 12 31

/-- ISO-8601 week number of a day number, that is
`datetime.isocalendar()[1]`: the week number is the index of the week
(Monday-based) of the Thursday of the week containing the date, counted
inside the year of that Thursday. -/
def isoWeekNumber (z : Int) : Int :=
  let thu := z + (3 - weekday z)
  let y := (civilFromDays thu).1
  (thu - daysFromCivil y 1 1) / 7 + 1

/-- Left-pad a natural number with zeros to `width` digits. -/
def padNat (width : Nat) (n : Nat) : String :=
  let s := toString n
  if s.length < width then String.mk (List.replicate (width - s.length) '0') ++ s
  else s

/-- Python `strftime("%Y%m%d")` on a day number. -/
def formatYYYYMMDD (z : Int) : String :=
  let c := civilFromDays z
  padNat 4 c.1.toNat ++ padNat 2 c.2.1.toNat ++ padNat 2 c.2.2.toNat

/-- Python `str.strip()` on a character list: drop whitespace from both
ends. -/
def stripChars (l : List Char) : List Char :=
  ((l.dropWhile Char.isWhitespace).reverse.dropWhile Char.isWhitespace).reverse

/-- Value of a list of decimal digit characters. -/
def digitsToNat (l : List Char) : Nat :=
  l.foldl (fun a c => 10 * a + (c.toNat - 48)) 0

/-- Parse a non-empty all-digit character list. -/
def parseDigits (l : List Char) : Option Nat :=
  if l ≠ [] ∧ l.all Char.isDigit then some (digitsToNat l) else none

/-- Python `int(s)` on the strings this program feeds it: optional
surrounding whitespace, an optional sign, then decimal digits.
(Digit-group underscores accepted by Python since 3.6 are not
modelled.) -/
def parsePyInt (s : String) : Option Int :=
  match stripChars s.toList with
  | '+' :: rest => (parseDigits rest).map (fun n => (n : Int))
  | '-' :: rest => (parseDigits rest).map (fun n => -(n : Int))
  | rest => (parseDigits rest).map (fun n => (n : Int))

/-- Python `datetime.strptime(s, "%Y%m%d")`, returning the day number of
the parsed date: eight digits, a valid month, a valid day of that month,
and a year inside the `datetime` range. -/
def parseYYYYMMDD (s : String) : Option Int :=
  let l := s.toList
  if l.length = 8 ∧ l.all Char.isDigit then
    let y : Int := digitsToNat (l.take 4)
    let m : Int := digitsToNat ((l.drop 4).take 2)
    let d : Int := digitsToNat (l.drop 6)
    if 1 ≤ y ∧ 1 ≤ m ∧ m ≤ 12 ∧ 1 ≤ d ∧ d ≤ daysInMonth y m then
      some (daysFromCivil y m d)
    else none
  else none

/-- Python truthiness of an optional string: `None` and `""` are falsy. -/
def pyStr (o : Option String) : Option String :=
  match o with
  | some s => if s = "" then none else some s
  | none => none

/-! ## Exceptions and call outcomes -/

/-- Exception classes raised by the program. -/
inductive ExnKind where
  | scheduleGenerationError
  | pdfProcessingError
  | browserNavigationError
  | overflowError
deriving DecidableEq, Repr

/-- Outcome of a Python call: a normal return value or a raised
exception. -/
inductive PyResult (α : Type) where
  | ret (a : α)
  | exn (k : ExnKind) (msg : String)
deriving DecidableEq, Repr

/-! ## DateUtils -/

/-- Embedding of `DateUtils.get_monday_from_week_number(year, week_number)`:
`jan4 = datetime(year, 1, 4)`, `monday_week1 = jan4 -
timedelta(days=jan4.weekday())`, `target = monday_week1 +
timedelta(weeks=week_number - 1)`.  The source wraps the computation in
a `try` whose handler returns the current date, so a year outside the
`datetime` range, or an intermediate or final date outside
0001-01-01 .. 9999-12-31, falls back to `today`
(the day number of `datetime.now()`). -/
def get_monday_from_week_number (today : Int) (year week : Int) : Int :=
  if year < 1 ∨ 9999 < year then today
  else
    let jan4 := daysFromCivil year 1 4
    let mondayWeek1 := jan4 - weekday jan4
    if mondayWeek1 < dateMin then today
    else
      let target := mondayWeek1 + 7 * (week - 1)
      if target < dateMin ∨ dateMax < target then today
      else target

/-- Embedding of `DateUtils.get_week_number_from_date(date_str)`:
`"S<iso week>"`, or `"S--"` when the string does not parse as
`YYYYMMDD`. -/
def get_week_number_from_date (s : String) : String :=
  match parseYYYYMMDD s with
  | some z => "S" ++ toString (isoWeekNumber z)
  | none => "S--"

/-- Environment read by `DateUtils.get_target_date`: the three
`os.getenv` inputs and the day number of `datetime.now()`. -/
structure TDEnv where
  TARGET_WEEK : Option String
  TARGET_DATE : Option String
  WEEKS_OFFSET : Option String
  today : Int
deriving DecidableEq, Repr

/-- Tail of `get_target_date` from the `WEEKS_OFFSET` check on.  The
branch catches only `ValueError`, so a parsable offset whose target date
leaves the `datetime` range raises `OverflowError` out of the
function. -/
def targetDateFromOffset (env : TDEnv) : PyResult String × List String :=
  match pyStr env.WEEKS_OFFSET with
  | some wo =>
    match parsePyInt wo with
    | some k =>
      let t := env.today + 7 * k
      if t < dateMin ∨ dateMax < t then
        (.exn .overflowError "date value out of range", [])
      else
        (.ret (formatYYYYMMDD t),
         ["📅 Using WEEKS_OFFSET=" ++ wo ++ " → " ++ formatYYYYMMDD t])
    | none =>
      (.ret (formatYYYYMMDD env.today),
       ["⚠️ Invalid WEEKS_OFFSET value: " ++ wo,
        "📅 Using current date: " ++ formatYYYYMMDD env.today])
  | none =>
    (.ret (formatYYYYMMDD env.today),
     ["📅 Using current date: " ++ formatYYYYMMDD env.today])

/-- Tail of `get_target_date` from the `TARGET_DATE` check on.  A
truthy `TARGET_DATE` is returned as is, without validation. -/
def targetDateFromDate (env : TDEnv) : PyResult String × List String :=
  match pyStr env.TARGET_DATE with
  | some td => (.ret td, ["📅 Using TARGET_DATE: " ++ td])
  | none => targetDateFromOffset env

/-- Embedding of `DateUtils.get_target_date()`: resolve the target date
from the environment in priority order `TARGET_WEEK`, `TARGET_DATE`,
`WEEKS_OFFSET`, current date, returning the `YYYYMMDD` string and the
log lines printed.  A truthy but non-integer `TARGET_WEEK` or
`WEEKS_OFFSET` prints a warning and falls through to the next input. -/
def get_target_date (env : TDEnv) : PyResult String × List String :=
  match pyStr env.TARGET_WEEK with
  | some tw =>
    match parsePyInt tw with
    | some w =>
      let d := formatYYYYMMDD
        (get_monday_from_week_number env.today (civilFromDays env.today).1 w)
      (.ret d, ["📅 Using TARGET_WEEK=" ++ tw ++ " → " ++ d])
    | none =>
      let rest := targetDateFromDate env
      (rest.1, ("⚠️ Invalid TARGET_WEEK value: " ++ tw) :: rest.2)
  | none => targetDateFromDate env

/-! ## FileUtils -/

/-- The characters `clean_filename_for_windows` replaces, in the order
the source iterates over the literal `<>:"|?*\/`. -/
def forbiddenChars : List Char :=
  ['<', '>', ':', '"', '|', '?', '*', '\\', '/']

/-- One `str.replace(char, "-")` pass over a character list. -/
def replaceChar (c : Char) (l : List Char) : List Char :=
  l.map fun x => if x = c then '-' else x

/-- All nine replacement passes, in source order. -/
def replaceForbidden (l : List Char) : List Char :=
  forbiddenChars.foldl (fun acc c => replaceChar c acc) l

/-- Embedding of `FileUtils.clean_filename_for_windows(filename)`. -/
def clean_filename_for_windows (s : String) : String :=
  (stripChars (replaceForbidden s.toList)).asString

/-- Embedding of `FileUtils.create_pdf_filename(target_date)`.  `nom`
and `promo` are the values of `NOM_PRENOM` and `PROMO` with the source
defaults applied; `today` is the day number of `datetime.now()`, used
when `target_date` is falsy. -/
def create_pdf_filename (nom promo : String) (targetDate : Option String)
    (today : Int) : String :=
  let semaine :=
    match pyStr targetDate with
    | some d => get_week_number_from_date d
    | none => get_week_number_from_date (formatYYYYMMDD today)
  clean_filename_for_windows (nom ++ " – " ++ promo ++ " – " ++ semaine ++ ".pdf")

/-- Embedding of `FileUtils.safe_rename_pdf(temp_path, target_filename,
save_folder)`: returns the path the file ends up at.  `renameOk` and
`fallbackOk` model whether each of the two `shutil.move` attempts
succeeds; when both fail the file stays at its temporary path. -/
def safe_rename_pdf (tempPath targetFilename saveFolder : String)
    (renameOk fallbackOk : Bool) : String :=
  if renameOk then saveFolder ++ "/" ++ targetFilename
  else
    let fallbackName := (targetFilename.replace "–" "-").replace " " "_"
    if fallbackOk then saveFolder ++ "/" ++ fallbackName
    else tempPath

/-! ## PDF post-processing (`add_message_to_pdf`) -/

/-- A drawing operation issued on the reportlab overlay canvas. -/
inductive DrawOp where
  | setFont (name : String) (size : Int)
  | setFillColor (color : String)
  | drawString (x y : Int) (text : String)
  | drawImage (path : String) (x y w h : Int)
deriving DecidableEq, Repr

/-- One PDF page: its mediabox dimensions (in points) and its content
stream, abstracted as the list of drawing operations it renders. -/
structure Page where
  width : Int
  height : Int
  content : List DrawOp
deriving DecidableEq, Repr

/-- Environment of one `add_message_to_pdf(input, output, message)`
call.  Each `Bool` fault field models one `try/except` of the source:
whether the operation guarded there raises. -/
structure PdfEnv where
  /-- does `os.path.exists(input_pdf_path)` hold (and the path is truthy) -/
  inputExists : Bool
  /-- does `PdfReader(input_pdf_path)` raise -/
  readFail : Bool
  /-- the pages of the input PDF -/
  inputPages : List Page
  /-- the raw bytes of the input PDF file (used by the `shutil.copy2` fallback) -/
  inputBytes : List Nat
  /-- is `SIGNATURE_FILE` truthy (its default `signature.png` is) -/
  sigConfigured : Bool
  /-- does `os.path.exists(signature_path)` hold -/
  sigExists : Bool
  /-- the absolute signature path -/
  sigPath : String
  /-- does `can.drawImage` raise (handler: continue without the signature) -/
  sigFail : Bool
  /-- page indices at which `page.merge_page` raises (handler: keep the page unmodified) -/
  mergeFailPages : List Nat
  /-- page indices at which building the overlay raises before the merge
  (outer per-page handler: keep the page unmodified) -/
  pageFailPages : List Nat
  /-- does writing the output PDF raise (re-raised as `PDFProcessingError`) -/
  saveFail : Bool
  /-- does a non-`PDFProcessingError` exception escape the page-processing
  loop (caught by the top-level generic handler) -/
  unexpectedFail : Bool
  /-- does the fallback `shutil.copy2` itself raise -/
  copyFail : Bool
deriving DecidableEq, Repr

/-- Outcome of `add_message_to_pdf`: the Python return value, or the
exception it raises. -/
inductive PdfResult where
  | ok (value : Bool)
  | pdfError (msg : String)
deriving DecidableEq, Repr

/-- What `add_message_to_pdf` left at the output path. -/
inductive PdfOutput where
  | nothing
  | pages (l : List Page)
  | byteCopy (bytes : List Nat)
deriving DecidableEq, Repr

/-- The overlay canvas content built for a page of width `w`: the
message in Helvetica-Bold 12 blue at (30, 30), and, when the configured
signature file exists and `drawImage` does not raise, the 80x40
signature image 30 points from the right edge and 30 from the bottom. -/
def overlayOps (env : PdfEnv) (w : Int) (message : String) : List DrawOp :=
  [.setFont "Helvetica-Bold" 12, .setFillColor "blue",
   .drawString 30 30 message] ++
    (if env.sigConfigured && env.sigExists && !env.sigFail then
      [.drawImage env.sigPath (w - 80 - 30) 30 80 40]
    else [])

/-- Embedding of `page.merge_page(overlay)`: compose the overlay onto
the page content (composition, not replacement). -/
def mergePage (p : Page) (ov : List DrawOp) : Page :=
  { p with content := p.content ++ ov }

/-- Body of the `for page_num, page in enumerate(reader.pages)` loop
for page `i`: on an overlay-construction error (outer handler) or a
merge error (inner handler) the original page is added unchanged,
otherwise the page with the overlay merged is added. -/
def processPage (env : PdfEnv) (message : String) (i : Nat) (p : Page) : Page :=
  if env.pageFailPages.contains i then p
  else if env.mergeFailPages.contains i then p
  else mergePage p (overlayOps env p.width message)

/-- Embedding of `add_message_to_pdf(input_pdf_path, output_pdf_path,
message)`.  Validation errors raise `PDFProcessingError` before
anything is written; `PDFProcessingError` is re-raised untouched by the
top-level handler; any other exception escaping the processing loop
triggers the fallback `shutil.copy2` of the original file to the output
path and is re-raised as `PDFProcessingError`. -/
def add_message_to_pdf (env : PdfEnv) (message : String) :
    PdfResult × PdfOutput :=
  if !env.inputExists then
    (.pdfError "Input PDF file not found", .nothing)
  else if stripChars message.toList = [] then
    (.pdfError "Message cannot be empty", .nothing)
  else if env.readFail then
    (.pdfError "Failed to read input PDF", .nothing)
  else if env.inputPages.length = 0 then
    (.pdfError "Input PDF has no pages", .nothing)
  else if env.unexpectedFail then
    if !env.copyFail then
      (.pdfError "Failed to process PDF", .byteCopy env.inputBytes)
    else
      (.pdfError "Failed to process PDF", .nothing)
  else
    let outPages := env.inputPages.enum.map fun ip =>
      processPage env message ip.1 ip.2
    if env.saveFail then
      (.pdfError "Failed to save output PDF", .nothing)
    else
      (.ok true, .pages outPages)

/-! ## Capture stage (`generate_schedule_pdf`) -/

/-- Disk and browser events observable during `generate_schedule_pdf`. -/
inductive Event where
  | openedAgendaTab (url : String)
  | wroteTempPdf (bytes : List Nat)
  | removedTempPdf
  | renamedStamped (path : String)
  | renamedUnstamped (path : String)
  | pdfOutput (o : PdfOutput)
deriving DecidableEq, Repr

/-- Does `sub` occur inside `s` (Python `in` on strings). -/
def strContains (s sub : String) : Bool :=
  s.toList.tails.any fun t => sub.toList.isPrefixOf t

/-- Environment of one `generate_schedule_pdf(driver, save_folder,
target_date)` call. -/
structure GenEnv where
  saveFolder : String
  /-- `NOM_PRENOM` with its source default applied -/
  nomPrenom : String
  /-- `PROMO` with its source default applied -/
  promo : String
  targetDate : Option String
  /-- day number of `datetime.now()` -/
  today : Int
  /-- `src` attributes of the iframes found in the content frame -/
  iframeSrcs : List String
  /-- one entry per print-button XPath selector: does `find_element` succeed -/
  selectorHits : List Bool
  /-- `PDF_MESSAGE` with its source default applied -/
  pdfMessage : String
  /-- decoded `Page.printToPDF` payload when the reply carries `data` -/
  cdpData : Option (List Nat)
  /-- environment of the nested `add_message_to_pdf` call -/
  pdfEnv : PdfEnv
  renameOk : Bool
  fallbackRenameOk : Bool
deriving DecidableEq, Repr

/-- Embedding of `generate_schedule_pdf`.  The whole body runs inside a
`try` whose handler returns `None`, so the function never raises: a
print button found by none of the selectors, a `Page.printToPDF` reply
without a `data` payload, and a `PDFProcessingError` escaping
`add_message_to_pdf` all end as a normal `None` return.  The returned
trace lists the externally visible events in order. -/
def generate_schedule_pdf (env : GenEnv) : PyResult (Option String) × List Event :=
  let navEvents :=
    match env.iframeSrcs.find? (fun src => strContains src "Agenda.asp") with
    | some url => [Event.openedAgendaTab url]
    | none => []
  let pdfFilename := create_pdf_filename env.nomPrenom env.promo env.targetDate env.today
  let expectedPath := env.saveFolder ++ "/" ++ pdfFilename
  if !(env.selectorHits.any id) then
    (.ret none, navEvents)
  else
    match env.cdpData with
    | none => (.ret none, navEvents)
    | some bytes =>
      let tempPath := expectedPath.replace ".pdf" "_temp.pdf"
      let stampedPath := expectedPath.replace ".pdf" "_with_message.pdf"
      let callEnv := { env.pdfEnv with inputExists := true, inputBytes := bytes }
      let r := add_message_to_pdf callEnv env.pdfMessage
      let evs := navEvents ++ [Event.wroteTempPdf bytes, Event.pdfOutput r.2]
      match r.1 with
      | .pdfError _ => (.ret none, evs)
      | .ok b =>
        if b then
          let finalPath := safe_rename_pdf stampedPath pdfFilename
            env.saveFolder env.renameOk env.fallbackRenameOk
          (.ret (some finalPath),
           evs ++ [Event.removedTempPdf, Event.renamedStamped finalPath])
        else
          let finalPath := safe_rename_pdf tempPath pdfFilename
            env.saveFolder env.renameOk env.fallbackRenameOk
          (.ret (some finalPath), evs ++ [Event.renamedUnstamped finalPath])

/-! ## Orchestrator (`main`) and the top-level script block -/

/-- Environment of one `main(username, password, nom_prenom, promo,
target_date, save_folder, debug_mode)` call.  Each stage `Bool` models
whether that stage completes without raising. -/
structure MainEnv where
  username : Option String
  password : Option String
  nomPrenom : Option String
  promo : Option String
  /-- does `webdriver.Chrome(...)` succeed -/
  browserOk : Bool
  /-- does `login(...)` complete without `BrowserNavigationError` -/
  loginOk : Bool
  /-- does `navigate_to_schedule(...)` complete without `BrowserNavigationError` -/
  navOk : Bool
  genEnv : GenEnv
deriving DecidableEq, Repr

/-- Embedding of `main(...)`: returns the Python return value, `0` from
the success path and `1` from every error handler.  Missing required
variables, a browser start failure, and login or navigation errors are
all wrapped into `ScheduleGenerationError` and caught by the handlers
that return `1`; `generate_schedule_pdf` never raises, so once
navigation succeeds `main` always reaches `return 0`. -/
def main_run (env : MainEnv) : Int :=
  if (pyStr env.username).isNone ∨ (pyStr env.password).isNone ∨
     (pyStr env.nomPrenom).isNone ∨ (pyStr env.promo).isNone then 1
  else if !env.browserOk then 1
  else if !env.loginOk then 1
  else if !env.navOk then 1
  else
    match (generate_schedule_pdf env.genEnv).1 with
    | .ret _ => 0
    | .exn _ _ => 1

/-- Embedding of the `if __name__ == "__main__"` block: it calls
`main(...)` but discards the returned value and never calls
`sys.exit`, so the interpreter terminates normally and the process exit
code is `0` no matter what `main` returned. -/
def script_exit_code (env : MainEnv) : Int :=
  let _ := main_run env
  0

/-! ## Observation helpers -/

/-- Total list indexing with an explicit default. -/
def nth {α : Type} (l : List α) (i : Nat) (d : α) : α :=
  match l, i with
  | [], _ => d
  | a :: _, 0 => a
  | _ :: t, n + 1 => nth t n d

/-- The pages written by `writer.write`, when that is what reached the
output path. -/
def outputPagesOf : PdfOutput → List Page
  | .pages l => l
  | _ => []

/-- Did the call raise `PDFProcessingError`. -/
def isPdfError : PdfResult → Bool
  | .pdfError _ => true
  | .ok _ => false

/-- Is the event the rename of the un-stamped temporary PDF (the
`else` branch after the `add_message_to_pdf` call). -/
def isUnstampedRename : Event → Bool
  | .renamedUnstamped _ => true
  | _ => false

/-- Does the event put document bytes on disk (anything but the agenda
tab navigation). -/
def producesArtifact : Event → Bool
  | .openedAgendaTab _ => false
  | .pdfOutput .nothing => false
  | _ => true

/-- Default page for total indexing. -/
def pageDefault : Page := ⟨0, 0, []⟩

/-! ## Concrete inputs used by counterexamples and witnesses -/

/-- A first captured page (A4 landscape in points, empty content). -/
def pgA : Page := ⟨842, 595, []⟩

/-- A second captured page with some existing content. -/
def pgB : Page := ⟨842, 595, [.drawString 100 200 "cours"]⟩

/-- A fault-free `add_message_to_pdf` environment whose input PDF has
two pages and whose signature file is absent. -/
def pdfEnvTwoPages : PdfEnv :=
  { inputExists := true
    readFail := false
    inputPages := [pgA, pgB]
    inputBytes := [37, 80, 68, 70]
    sigConfigured := true
    sigExists := false
    sigPath := "/abs/signature.png"
    sigFail := false
    mergeFailPages := []
    pageFailPages := []
    saveFail := false
    unexpectedFail := false
    copyFail := false }

/-- Like `pdfEnvTwoPages` but an unexpected exception escapes the
page-processing loop. -/
def pdfEnvUnexpected : PdfEnv :=
  { pdfEnvTwoPages with unexpectedFail := true }

/-- A capture environment in which none of the eight print-button
selectors matches any element. -/
def genEnvNoButton : GenEnv :=
  { saveFolder := "pdfs"
    nomPrenom := "GUERRY Roman"
    promo := "FIPA3R"
    targetDate := some "20250915"
    today := 0
    iframeSrcs := []
    selectorHits := [false, false, false, false, false, false, false, false]
    pdfMessage := "Emploi du temps généré automatiquement"
    cdpData := some [37, 80, 68, 70]
    pdfEnv := pdfEnvTwoPages
    renameOk := true
    fallbackRenameOk := true }

/-- A capture environment in which the first selector matches but the
`Page.printToPDF` reply carries no `data` payload. -/
def genEnvNoData : GenEnv :=
  { genEnvNoButton with
    selectorHits := [true, false, false, false, false, false, false, false]
    cdpData := none }

/-- An orchestrator environment with all required variables present in
which the login stage raises `BrowserNavigationError`. -/
def mainEnvLoginFail : MainEnv :=
  { username := some "user"
    password := some "secret"
    nomPrenom := some "GUERRY Roman"
    promo := some "FIPA3R"
    browserOk := true
    loginOk := false
    navOk := true
    genEnv := genEnvNoButton }

/-- Target-date environment: parsable `TARGET_WEEK`, with the two
lower-priority inputs also present. -/
def tdEnvWeek : TDEnv :=
  ⟨some "38", some "20240101", some "2", daysFromCivil 2025 10 12⟩

/-- Target-date environment: non-integer `TARGET_WEEK` falling through
to a present `TARGET_DATE`. -/
def tdEnvBadWeek : TDEnv :=
  ⟨some "week38", some "20250915", some "2", daysFromCivil 2025 10 12⟩

/-- Target-date environment: only `WEEKS_OFFSET` present. -/
def tdEnvOffset : TDEnv :=
  ⟨none, none, some "2", daysFromCivil 2025 10 12⟩

/-- Target-date environment: no input present. -/
def tdEnvEmpty : TDEnv :=
  ⟨none, none, none, daysFromCivil 2025 10 12⟩

/-! ## Claim C1 (exit-code contract) -/

/-- C1: the specification claims the process terminates with exit code 1
whenever any stage fails.  `main` does return 1 from its error handlers,
but the `if __name__ == "__main__"` block discards that value and never
calls `sys.exit`, so the interpreter exits normally with code 0.
Evaluated here at an environment in which the login stage raises
`BrowserNavigationError`: `main` returns 1 and the process exit code is
nevertheless 0 (the GUI, which branches on the subprocess return code,
therefore reports success). -/
theorem c1_exit_code_dropped :
    main_run mainEnvLoginFail = 1 ∧ script_exit_code mainEnvLoginFail = 0 := by
  decide

/-! ## Claim C2 (no print trigger found) -/

/-- C2 counterexample: with no print-button selector matching,
`generate_schedule_pdf` does not raise `BrowserNavigationError` (nor
anything else): it returns `None` normally, with an empty event trace.
The claim that this situation "fails with `BrowserNavigationError`" is
therefore false of the code. -/
theorem c2_counterexample :
    generate_schedule_pdf genEnvNoButton = (.ret none, []) := by
  decide

/-- C2 amended: when none of the ordered print-trigger selectors
matches, `generate_schedule_pdf` logs the failure and returns `None`
without raising; no document is produced (no event of the run puts
document bytes on disk). -/
theorem c2_amended (env : GenEnv) (h : env.selectorHits.any id = false) :
    (generate_schedule_pdf env).1 = .ret none ∧
    (generate_schedule_pdf env).2.all (fun e => !producesArtifact e) = true := by
  rcases hf : env.iframeSrcs.find? (fun src => strContains src "Agenda.asp")
      with _ | url <;>
    simp [generate_schedule_pdf, hf, h, producesArtifact]

/-- Witness for the amended C2 at a concrete environment. -/
theorem c2_witness :
    genEnvNoButton.selectorHits.any id = false ∧
    ((generate_schedule_pdf genEnvNoButton).1 = .ret none ∧
     (generate_schedule_pdf genEnvNoButton).2.all
       (fun e => !producesArtifact e) = true) :=
  ⟨rfl, c2_amended genEnvNoButton rfl⟩

/-! ## Claim C3 (no data payload from the native print call) -/

/-- C3 counterexample: when the `Page.printToPDF` reply has no `data`
key, `generate_schedule_pdf` does not raise any
`PDFProcessingError`-class failure: it returns `None` normally with an
empty trace.  The claim that this is "a hard PDFProcessingError-class
failure" is therefore false of the code. -/
theorem c3_counterexample :
    generate_schedule_pdf genEnvNoData = (.ret none, []) := by
  decide

/-- C3 amended: when the native print-to-file reply carries no inline
base64 payload, `generate_schedule_pdf` logs the failure and returns
`None` without raising; no document is produced. -/
theorem c3_amended (env : GenEnv) (h : env.cdpData = none) :
    (generate_schedule_pdf env).1 = .ret none ∧
    (generate_schedule_pdf env).2.all (fun e => !producesArtifact e) = true := by
  rcases hf : env.iframeSrcs.find? (fun src => strContains src "Agenda.asp")
      with _ | url <;>
    by_cases hs : env.selectorHits.any id <;>
      simp [generate_schedule_pdf, hf, h, hs, producesArtifact]

/-- Witness for the amended C3 at a concrete environment. -/
theorem c3_witness :
    genEnvNoData.cdpData = none ∧
    ((generate_schedule_pdf genEnvNoData).1 = .ret none ∧
     (generate_schedule_pdf genEnvNoData).2.all
       (fun e => !producesArtifact e) = true) :=
  ⟨rfl, c3_amended genEnvNoData rfl⟩

/-! ## Claim C5 (empty message) -/

/-- C5: with an empty (or whitespace-only) message,
`add_message_to_pdf` raises `PDFProcessingError` and nothing at all is
written to the output path: the validation happens before the output
file is opened, and the `except PDFProcessingError: raise` handler
re-raises without running the fallback copy. -/
theorem c5_empty_message_no_write (env : PdfEnv) (m : String)
    (h : stripChars m.toList = []) :
    isPdfError (add_message_to_pdf env m).1 = true ∧
    (add_message_to_pdf env m).2 = PdfOutput.nothing := by
  simp only [String.toList] at h
  by_cases he : env.inputExists <;>
    simp [add_message_to_pdf, he, h, isPdfError]

/-- Witness for C5 at a concrete environment and the empty message. -/
theorem c5_witness :
    stripChars "".toList = [] ∧
    (isPdfError (add_message_to_pdf pdfEnvTwoPages "").1 = true ∧
     (add_message_to_pdf pdfEnvTwoPages "").2 = PdfOutput.nothing) :=
  ⟨rfl, c5_empty_message_no_write pdfEnvTwoPages "" rfl⟩

/-! ## Claim C6 (fallback byte copy on unexpected failure) -/

/-- C6: when a non-`PDFProcessingError` exception escapes the
overlay/merge processing after validation has passed, the generic
handler copies the original captured document byte-for-byte to the
output location (`shutil.copy2`) and re-raises as
`PDFProcessingError`. -/
theorem c6_fallback_byte_copy (env : PdfEnv) (m : String)
    (hunex : env.unexpectedFail = true) (hex : env.inputExists = true)
    (hmsg : stripChars m.toList ≠ []) (hread : env.readFail = false)
    (hne : env.inputPages ≠ []) (hcopy : env.copyFail = false) :
    add_message_to_pdf env m =
      (.pdfError "Failed to process PDF", .byteCopy env.inputBytes) := by
  simp only [String.toList] at hmsg
  simp [add_message_to_pdf, hex, hmsg, hread, hunex, hcopy,
    List.length_eq_zero, hne]

/-- Witness for C6 at a concrete environment. -/
theorem c6_witness :
    pdfEnvUnexpected.unexpectedFail = true ∧
    add_message_to_pdf pdfEnvUnexpected "Message" =
      (.pdfError "Failed to process PDF", .byteCopy pdfEnvUnexpected.inputBytes) :=
  ⟨rfl, c6_fallback_byte_copy pdfEnvUnexpected "Message" rfl rfl (by decide)
    rfl (by decide) rfl⟩

/-! ## Claim C10 (truthy return; unstamped-rename branch unreachable) -/

/-- The only `return` statement of `add_message_to_pdf` is
`return True`: a normal return always carries `True`. -/
lemma add_message_to_pdf_returns_true (env : PdfEnv) (m : String) (b : Bool)
    (h : (add_message_to_pdf env m).1 = .ok b) : b = true := by
  simp only [add_message_to_pdf] at h
  repeat' split at h
  all_goals simp_all

/-- The `else` branch of `generate_schedule_pdf` that renames the
un-stamped temporary PDF never runs: no trace contains an unstamped
rename event. -/
lemma generate_no_unstamped_rename (env : GenEnv) :
    (generate_schedule_pdf env).2.all (fun e => !isUnstampedRename e) = true := by
  simp only [generate_schedule_pdf]
  split
  · split <;> simp [isUnstampedRename]
  · split
    · split <;> simp [isUnstampedRename]
    · split
      · split <;> simp [isUnstampedRename]
      · rename_i b heq
        have hb := add_message_to_pdf_returns_true _ _ _ heq
        subst hb
        simp only [if_true]
        split <;> simp [isUnstampedRename]

/-- C10: whenever `add_message_to_pdf` returns normally its value is
`True`; consequently the `else` branch in `generate_schedule_pdf` that
would rename the un-stamped temporary PDF directly is unreachable (no
run trace ever contains an unstamped-rename event). -/
theorem c10_no_falsy_return (penv : PdfEnv) (m : String) (genv : GenEnv)
    (b : Bool) (h : (add_message_to_pdf penv m).1 = .ok b) :
    b = true ∧
    (generate_schedule_pdf genv).2.all (fun e => !isUnstampedRename e) = true :=
  ⟨add_message_to_pdf_returns_true penv m b h, generate_no_unstamped_rename genv⟩

/-- Witness for C10 at a concrete successful `add_message_to_pdf` call
and a concrete capture environment. -/
theorem c10_witness :
    (add_message_to_pdf pdfEnvTwoPages "Message").1 = .ok true ∧
    (true = true ∧
     (generate_schedule_pdf genEnvNoButton).2.all
       (fun e => !isUnstampedRename e) = true) :=
  ⟨by decide,
   c10_no_falsy_return pdfEnvTwoPages "Message" genEnvNoButton true (by decide)⟩

/-! ## Claim C4 (overlay applied to pages) -/

/-- Enumeration followed by projection to the element is a plain map. -/
lemma enumFrom_map_snd {α β : Type} (f : α → β) :
    ∀ (n : Nat) (l : List α),
      (l.enumFrom n).map (fun ip => f ip.2) = l.map f := by
  intro n l
  induction l generalizing n with
  | nil => rfl
  | cons a t ih => simp [List.enumFrom, ih]

/-- Merging the overlay strictly extends the page content stream, so
the merged page is never byte-identical to the original. -/
lemma mergePage_overlay_ne (p : Page) (env : PdfEnv) (w : Int) (m : String) :
    mergePage p (overlayOps env w m) ≠ p := by
  intro h
  have hl : (mergePage p (overlayOps env w m)).content.length = p.content.length := by
    rw [h]
  simp [mergePage, overlayOps] at hl

/-- Indexing a mapped list below its length. -/
lemma nth_map {α β : Type} (f : α → β) (l : List α) (i : Nat) (d : α) (e : β)
    (h : i < l.length) : nth (l.map f) i e = f (nth l i d) := by
  induction l generalizing i with
  | nil => simp at h
  | cons a t ih =>
    cases i with
    | zero => rfl
    | succ n =>
      simp only [List.map_cons, nth]
      exact ih n (by simp at h; omega)

/-- On a fault-free run, `add_message_to_pdf` returns `True` and writes
every input page with the overlay merged onto it. -/
lemma add_message_to_pdf_ok (env : PdfEnv) (m : String)
    (hex : env.inputExists = true) (hread : env.readFail = false)
    (hmsg : stripChars m.toList ≠ []) (hunex : env.unexpectedFail = false)
    (hsave : env.saveFail = false)
    (hmf : env.mergeFailPages = []) (hpf : env.pageFailPages = [])
    (hne : env.inputPages ≠ []) :
    add_message_to_pdf env m =
      (.ok true, .pages (env.inputPages.map
        (fun p => mergePage p (overlayOps env p.width m)))) := by
  simp only [String.toList] at hmsg
  have hpp : (fun ip : Nat × Page => processPage env m ip.1 ip.2) =
      fun ip : Nat × Page => mergePage ip.2 (overlayOps env ip.2.width m) := by
    funext ip
    simp [processPage, hmf, hpf]
  simp [add_message_to_pdf, hex, hread, hmsg, hunex, hsave, hne,
    List.length_eq_zero, hpp, List.enum]
  exact enumFrom_map_snd (fun p => mergePage p (overlayOps env p.width m)) 0
    env.inputPages

/-- C4 counterexample: on a two-page input with a non-empty message and
no faults, the output does have two pages, but page 2 is not
byte-identical to input page 2 — the source merges the overlay onto
every page of the loop, not only the first, so the claim that pages
2..N remain unmodified is false of the code. -/
theorem c4_counterexample :
    (outputPagesOf (add_message_to_pdf pdfEnvTwoPages "Present").2).length = 2 ∧
    nth (outputPagesOf (add_message_to_pdf pdfEnvTwoPages "Present").2) 1
      pageDefault ≠ pgB := by
  decide

/-- C4 amended: for every input PDF with at least one page, a non-empty
message and a fault-free overlay/merge/save run, the output has exactly
as many pages as the input, and EVERY page `i` (the first included) is
the corresponding input page with the overlay merged onto it — hence no
page, first or later, is byte-identical to its input page. -/
theorem c4_overlay_on_every_page (env : PdfEnv) (m : String) (i : Nat)
    (hex : env.inputExists = true) (hread : env.readFail = false)
    (hmsg : stripChars m.toList ≠ []) (hunex : env.unexpectedFail = false)
    (hsave : env.saveFail = false)
    (hmf : env.mergeFailPages = []) (hpf : env.pageFailPages = [])
    (hi : i < env.inputPages.length) :
    (add_message_to_pdf env m).1 = .ok true ∧
    (outputPagesOf (add_message_to_pdf env m).2).length =
      env.inputPages.length ∧
    nth (outputPagesOf (add_message_to_pdf env m).2) i pageDefault =
      mergePage (nth env.inputPages i pageDefault)
        (overlayOps env (nth env.inputPages i pageDefault).width m) ∧
    nth (outputPagesOf (add_message_to_pdf env m).2) i pageDefault ≠
      nth env.inputPages i pageDefault := by
  have hne : env.inputPages ≠ [] := by
    intro hcon
    rw [hcon] at hi
    simp at hi
  rw [add_message_to_pdf_ok env m hex hread hmsg hunex hsave hmf hpf hne]
  refine ⟨rfl, by simp [outputPagesOf], ?_, ?_⟩
  · simp only [outputPagesOf]
    exact nth_map _ _ _ pageDefault _ hi
  · simp only [outputPagesOf]
    rw [nth_map _ _ _ pageDefault _ hi]
    exact mergePage_overlay_ne _ env _ m

/-- Witness for the amended C4 at the two-page environment, page
index 1. -/
theorem c4_witness :
    (add_message_to_pdf pdfEnvTwoPages "Message").1 = .ok true ∧
    (outputPagesOf (add_message_to_pdf pdfEnvTwoPages "Message").2).length =
      pdfEnvTwoPages.inputPages.length ∧
    nth (outputPagesOf (add_message_to_pdf pdfEnvTwoPages "Message").2) 1
        pageDefault =
      mergePage (nth pdfEnvTwoPages.inputPages 1 pageDefault)
        (overlayOps pdfEnvTwoPages
          (nth pdfEnvTwoPages.inputPages 1 pageDefault).width "Message") ∧
    nth (outputPagesOf (add_message_to_pdf pdfEnvTwoPages "Message").2) 1
        pageDefault ≠
      nth pdfEnvTwoPages.inputPages 1 pageDefault :=
  c4_overlay_on_every_page pdfEnvTwoPages "Message" 1 rfl rfl (by decide)
    rfl rfl rfl rfl (by decide)

/-! ## Claim C9 (filename sanitizer idempotence) -/

/-- A replacement pass for a character absent from the list is the
identity. -/
lemma replaceChar_eq_self {c : Char} {l : List Char}
    (h : ∀ x ∈ l, x ≠ c) : replaceChar c l = l := by
  unfold replaceChar
  have heq : ∀ a ∈ l, (if a = c then '-' else a) = id a := by
    intro a ha
    simp [h a ha]
  rw [List.map_congr_left heq, List.map_id]

/-- Membership after one replacement pass: the element is the
replacement hyphen, or an element of the input other than the replaced
character. -/
lemma mem_replaceChar {x c : Char} {l : List Char}
    (h : x ∈ replaceChar c l) : x = '-' ∨ (x ∈ l ∧ x ≠ c) := by
  unfold replaceChar at h
  rcases List.mem_map.mp h with ⟨a, ha, hax⟩
  by_cases hac : a = c
  · rw [if_pos hac] at hax
    exact Or.inl hax.symm
  · rw [if_neg hac] at hax
    subst hax
    exact Or.inr ⟨ha, hac⟩

/-- Membership after folding replacement passes for all characters of
`cs` (none of which is the hyphen): the element is the hyphen, or an
untouched input element outside `cs`. -/
lemma mem_foldl_replace :
    ∀ (cs : List Char), '-' ∉ cs →
      ∀ {l : List Char} {x : Char},
        x ∈ cs.foldl (fun acc c => replaceChar c acc) l →
        x = '-' ∨ (x ∈ l ∧ x ∉ cs) := by
  intro cs
  induction cs with
  | nil =>
    intro _ l x h
    exact Or.inr ⟨h, by simp⟩
  | cons c cs ih =>
    intro hd l x h
    rw [List.foldl_cons] at h
    have hdcs : '-' ∉ cs := fun hcon => hd (by simp [hcon])
    rcases ih hdcs h with h2 | ⟨h2, h3⟩
    · exact Or.inl h2
    · rcases mem_replaceChar h2 with h4 | ⟨h4, h5⟩
      · exact Or.inl h4
      · refine Or.inr ⟨h4, ?_⟩
        simp only [List.mem_cons, not_or]
        exact ⟨h5, h3⟩

/-- Folding replacement passes over a list containing none of the
replaced characters is the identity. -/
lemma foldl_replace_eq_self :
    ∀ (cs : List Char) {l : List Char}, (∀ x ∈ l, x ∉ cs) →
      cs.foldl (fun acc c => replaceChar c acc) l = l := by
  intro cs
  induction cs with
  | nil => intro l _; rfl
  | cons c cs ih =>
    intro l h
    rw [List.foldl_cons]
    have hcl : replaceChar c l = l := by
      apply replaceChar_eq_self
      intro x hx
      have := h x hx
      simp only [List.mem_cons, not_or] at this
      exact this.1
    rw [hcl]
    apply ih
    intro x hx
    have := h x hx
    simp only [List.mem_cons, not_or] at this
    exact this.2

/-- Dropping a prefix predicate twice is the same as dropping it
once. -/
lemma dropWhile_dropWhile {α : Type} (p : α → Bool) (l : List α) :
    (l.dropWhile p).dropWhile p = l.dropWhile p := by
  induction l with
  | nil => rfl
  | cons a t ih =>
    by_cases h : p a
    · simp [List.dropWhile_cons, h, ih]
    · simp [List.dropWhile_cons, h]

/-- A prefix of a list whose `dropWhile` is trivial also has a trivial
`dropWhile`. -/
lemma dropWhile_eq_self_of_prefix {α : Type} {p : α → Bool} :
    ∀ {m l : List α}, m <+: l → l.dropWhile p = l → m.dropWhile p = m := by
  intro m l hp hl
  cases m with
  | nil => rfl
  | cons a t =>
    obtain ⟨u, hu⟩ := hp
    subst hu
    rw [List.cons_append, List.dropWhile_cons] at hl
    rw [List.dropWhile_cons]
    by_cases h : p a
    · exfalso
      rw [if_pos h] at hl
      have hlen := congrArg List.length hl
      have hle := ((List.dropWhile_suffix (l := t ++ u) p).length_le)
      simp at hlen hle
      omega
    · rw [if_neg h]

/-- Trimming from the right (reverse, drop, reverse) yields a prefix of
the input. -/
lemma rightTrim_isPrefixOf {α : Type} (p : α → Bool) (l : List α) :
    (l.reverse.dropWhile p).reverse <+: l := by
  have h1 : l.reverse.dropWhile p <:+ l.reverse := List.dropWhile_suffix p
  have h2 := List.reverse_prefix.mpr h1
  simpa using h2

/-- The left whitespace drop is trivial on a stripped list. -/
lemma dropWhile_stripChars (l : List Char) :
    (stripChars l).dropWhile Char.isWhitespace = stripChars l := by
  unfold stripChars
  exact dropWhile_eq_self_of_prefix (rightTrim_isPrefixOf _ _)
    (dropWhile_dropWhile _ l)

/-- Stripping is idempotent. -/
lemma stripChars_idem (l : List Char) :
    stripChars (stripChars l) = stripChars l := by
  show (((stripChars l).dropWhile Char.isWhitespace).reverse.dropWhile
    Char.isWhitespace).reverse = stripChars l
  rw [dropWhile_stripChars]
  unfold stripChars
  rw [List.reverse_reverse, dropWhile_dropWhile]

/-- Elements survive stripping. -/
lemma mem_stripChars {x : Char} {l : List Char} (h : x ∈ stripChars l) :
    x ∈ l := by
  unfold stripChars at h
  rw [List.mem_reverse] at h
  have h2 : x ∈ (l.dropWhile Char.isWhitespace).reverse :=
    (List.dropWhile_suffix _).subset h
  rw [List.mem_reverse] at h2
  exact (List.dropWhile_suffix _).subset h2

/-- A string already cleaned contains no forbidden character, so a
second replacement fold is the identity. -/
lemma replaceForbidden_stripChars_replaceForbidden (l : List Char) :
    replaceForbidden (stripChars (replaceForbidden l)) =
      stripChars (replaceForbidden l) := by
  unfold replaceForbidden
  apply foldl_replace_eq_self
  intro x hx
  have hx2 : x ∈ replaceForbidden l := mem_stripChars hx
  rcases mem_foldl_replace forbiddenChars (by decide) hx2 with h | ⟨_, h⟩
  · subst h
    decide
  · exact h

/-- Round trip between character lists and strings. -/
lemma toList_asString (l : List Char) : (List.asString l).toList = l := rfl

/-- C9: `clean_filename_for_windows` is idempotent — applied to its own
output it performs no further substitution or trimming. -/
theorem c9_clean_filename_idempotent (s : String) :
    clean_filename_for_windows (clean_filename_for_windows s) =
      clean_filename_for_windows s := by
  unfold clean_filename_for_windows
  rw [toList_asString, replaceForbidden_stripChars_replaceForbidden,
    stripChars_idem]

/-! ## Claim C7 (Monday of an ISO week) -/

/-- Closed form of the day number of January 4 of a year, exposing the
division structure to linear arithmetic. -/
lemma daysFromCivil_jan4 (y : Int) :
    daysFromCivil y 1 4 =
      (y - 1) / 400 * 146097 +
        (((y - 1) - (y - 1) / 400 * 400) * 365 +
          ((y - 1) - (y - 1) / 400 * 400) / 4 -
          ((y - 1) - (y - 1) / 400 * 400) / 100 + 309) - 719468 := rfl

/-- C7 counterexample: at year 9999 and week 53 the target Monday,
January 4 of 9999 plus 52 weeks, falls past 9999-12-31, the last date
Python `datetime` supports; the `except` handler then returns the
current date instead.  With the current date 1970-01-01 (a Thursday)
the function returns a non-Monday that is not the claimed anchor-rule
date, so the claim quantified over every year is false of the code. -/
theorem c7_counterexample :
    get_monday_from_week_number 0 9999 53 = 0 ∧
    isoweekday (get_monday_from_week_number 0 9999 53) ≠ 1 ∧
    get_monday_from_week_number 0 9999 53 ≠
      daysFromCivil 9999 1 4 - weekday (daysFromCivil 9999 1 4) +
        7 * (53 - 1) := by
  decide

/-- C7 amended: for every year the `datetime` module supports (1 to
9999) and every ISO week number 1 to 53 whose Monday still lies inside
the supported range (all of them except week 53 of year 9999),
`get_monday_from_week_number` returns exactly
`jan4 - weekday(jan4) + 7 * (week - 1)` days, and that date is a Monday
(`isoweekday` equal to 1). -/
theorem c7_monday_of_week (today year week : Int)
    (hy1 : 1 ≤ year) (hy2 : year ≤ 9999) (hw1 : 1 ≤ week) (hw2 : week ≤ 53)
    (hlast : year ≤ 9998 ∨ week ≤ 52) :
    get_monday_from_week_number today year week =
      daysFromCivil year 1 4 - weekday (daysFromCivil year 1 4) +
        7 * (week - 1) ∧
    isoweekday (get_monday_from_week_number today year week) = 1 := by
  have hmin : dateMin = -719162 := by decide
  have hmax : dateMax = 2932896 := by decide
  have key : get_monday_from_week_number today year week =
      daysFromCivil year 1 4 - weekday (daysFromCivil year 1 4) +
        7 * (week - 1) := by
    simp only [get_monday_from_week_number, weekday, hmin, hmax,
      daysFromCivil_jan4]
    split_ifs <;> omega
  refine ⟨key, ?_⟩
  rw [key]
  simp only [isoweekday, weekday]
  omega

/-- Witness for the amended C7 at year 2025, week 38. -/
theorem c7_witness :
    get_monday_from_week_number 0 2025 38 =
      daysFromCivil 2025 1 4 - weekday (daysFromCivil 2025 1 4) +
        7 * (38 - 1) ∧
    isoweekday (get_monday_from_week_number 0 2025 38) = 1 :=
  c7_monday_of_week 0 2025 38 (by decide) (by decide) (by decide) (by decide)
    (Or.inl (by decide))

/-! ## Claim C8 (target-date resolution priority) -/

/-- Absent environment variables are falsy. -/
lemma pyStr_none : pyStr none = none := rfl

/-- C8: `get_target_date` consults its inputs in the priority order
`TARGET_WEEK`, `TARGET_DATE`, `WEEKS_OFFSET`, current date, and only
the first usable one determines the result; a truthy but non-integer
`TARGET_WEEK` or `WEEKS_OFFSET` is logged with a warning and resolution
proceeds exactly as if that variable were absent. -/
theorem c8_priority (env : TDEnv) :
    (∀ s w, pyStr env.TARGET_WEEK = some s → parsePyInt s = some w →
      (get_target_date env).1 = .ret (formatYYYYMMDD
        (get_monday_from_week_number env.today (civilFromDays env.today).1 w))) ∧
    (∀ s, pyStr env.TARGET_WEEK = some s → parsePyInt s = none →
      (get_target_date env).1 =
        (get_target_date { env with TARGET_WEEK := none }).1 ∧
      ("⚠️ Invalid TARGET_WEEK value: " ++ s) ∈ (get_target_date env).2) ∧
    (∀ s, pyStr env.TARGET_WEEK = none → pyStr env.TARGET_DATE = some s →
      (get_target_date env).1 = .ret s) ∧
    (∀ s k, pyStr env.TARGET_WEEK = none → pyStr env.TARGET_DATE = none →
      pyStr env.WEEKS_OFFSET = some s → parsePyInt s = some k →
      dateMin ≤ env.today + 7 * k → env.today + 7 * k ≤ dateMax →
      (get_target_date env).1 = .ret (formatYYYYMMDD (env.today + 7 * k))) ∧
    (∀ s, pyStr env.TARGET_WEEK = none → pyStr env.TARGET_DATE = none →
      pyStr env.WEEKS_OFFSET = some s → parsePyInt s = none →
      (get_target_date env).1 = .ret (formatYYYYMMDD env.today) ∧
      ("⚠️ Invalid WEEKS_OFFSET value: " ++ s) ∈ (get_target_date env).2) ∧
    (pyStr env.TARGET_WEEK = none → pyStr env.TARGET_DATE = none →
      pyStr env.WEEKS_OFFSET = none →
      (get_target_date env).1 = .ret (formatYYYYMMDD env.today)) := by
  refine ⟨?_, ?_, ?_, ?_, ?_, ?_⟩
  · intro s w h1 h2
    simp [get_target_date, h1, h2]
  · intro s h1 h2
    constructor
    · simp [get_target_date, targetDateFromDate, targetDateFromOffset,
        pyStr_none, h1, h2]
    · simp [get_target_date, h1, h2]
  · intro s h1 h2
    simp [get_target_date, targetDateFromDate, h1, h2]
  · intro s k h1 h2 h3 h4 h5 h6
    have hr : ¬(env.today + 7 * k < dateMin ∨ dateMax < env.today + 7 * k) := by
      omega
    simp [get_target_date, targetDateFromDate, targetDateFromOffset,
      h1, h2, h3, h4, hr]
  · intro s h1 h2 h3 h4
    constructor
    · simp [get_target_date, targetDateFromDate, targetDateFromOffset,
        h1, h2, h3, h4]
    · simp [get_target_date, targetDateFromDate, targetDateFromOffset,
        h1, h2, h3, h4]
  · intro h1 h2 h3
    simp [get_target_date, targetDateFromDate, targetDateFromOffset,
      h1, h2, h3]

/-- Witness for C8: the four resolution outcomes at concrete
environments, each obtained by instantiating the theorem. -/
theorem c8_witness :
    ((get_target_date tdEnvWeek).1 = .ret (formatYYYYMMDD
      (get_monday_from_week_number tdEnvWeek.today
        (civilFromDays tdEnvWeek.today).1 38))) ∧
    ((get_target_date tdEnvBadWeek).1 =
        (get_target_date { tdEnvBadWeek with TARGET_WEEK := none }).1 ∧
      ("⚠️ Invalid TARGET_WEEK value: " ++ "week38") ∈
        (get_target_date tdEnvBadWeek).2) ∧
    ((get_target_date tdEnvOffset).1 =
      .ret (formatYYYYMMDD (tdEnvOffset.today + 7 * 2))) ∧
    ((get_target_date tdEnvEmpty).1 = .ret (formatYYYYMMDD tdEnvEmpty.today)) :=
  ⟨(c8_priority tdEnvWeek).1 "38" 38 (by decide) (by decide),
   (c8_priority tdEnvBadWeek).2.1 "week38" (by decide) (by decide),
   (c8_priority tdEnvOffset).2.2.2.1 "2" 2 (by decide) (by decide) (by decide)
     (by decide) (by decide) (by decide),
   (c8_priority tdEnvEmpty).2.2.2.2.2 (by decide) (by decide) (by decide)⟩

end PassEdtSign
